import Mathlib

set_option maxHeartbeats 1000000
set_option maxRecDepth 4000

/-!
Shallow embedding of the QDT beta-monitoring system implemented in
`src/Cali_Housing_Model.py` (classes `BetaMonitor` and `QDTSystemCorrector`).

Python floats are modelled by the inductive type `Val`, carrying a finite
rational or one of the non-finite values `nan`, `inf`, `negInf`; the boolean
comparison `Val.le` reproduces the IEEE semantics used by the source
(`NaN <= x` and `x <= NaN` are both false).  The arithmetic of the corrector
(`QDTSystemCorrector`) only ever runs on the finite beta values it is handed,
so it is embedded over `ℚ` directly; timestamps and logging calls are the
only parts of the records not modelled (no real time in the embedding).
-/

/-- Alert severities stored in `BetaMonitor.alert_status`
(`"NORMAL"`, `"ALERT"`, `"CRITICAL"`, `"EMERGENCY"` in the source). -/
inductive Severity where
  | NORMAL
  | ALERT
  | CRITICAL
  | EMERGENCY
deriving DecidableEq, Repr

/-- A Python float: a finite rational, NaN, or an infinity. -/
inductive Val where
  | finite : ℚ → Val
  | nan : Val
  | inf : Val
  | negInf : Val
deriving DecidableEq, Repr

/-- IEEE-754 `<=` as used by Python float comparisons: any comparison
involving NaN is false; `-inf` is below and `+inf` above every non-NaN
value. -/
def Val.le : Val → Val → Bool
  | .nan, _ => false
  | _, .nan => false
  | .negInf, _ => true
  | _, .negInf => false
  | _, .inf => true
  | .inf, _ => false
  | .finite a, .finite b => decide (a ≤ b)

/-- The `BetaMonitor` object: configuration fields (`reference_beta` and the
three thresholds, set in `__init__`, lines 149–162) together with the mutable
state touched by `update_beta` (`current_beta`, `beta_history`,
`alert_status`).  Callbacks are modelled separately (see `notify_callbacks`)
since `update_beta` only passes them the transition event. -/
structure BetaMonitor where
  reference_beta : ℚ
  alert_threshold : ℚ
  critical_threshold : ℚ
  emergency_threshold : ℚ
  current_beta : Val
  beta_history : List Val
  alert_status : Severity
deriving DecidableEq, Repr

/-- `BetaMonitor.__init__`: the monitor starts at the reference beta with an
empty history and status `NORMAL`. -/
def mkBetaMonitor (reference_beta alert_threshold critical_threshold emergency_threshold : ℚ) : BetaMonitor :=
  { reference_beta := reference_beta
    alert_threshold := alert_threshold
    critical_threshold := critical_threshold
    emergency_threshold := emergency_threshold
    current_beta := .finite reference_beta
    beta_history := []
    alert_status := .NORMAL }

/-- The monitor built with the default thresholds of `BetaMonitor.__init__`
(`reference_beta=0.310`, `alert=0.05`, `critical=-0.05`, `emergency=-0.15`). -/
def defaultMonitor : BetaMonitor :=
  mkBetaMonitor 0.310 0.05 (-0.05) (-0.15)

/-- The classification cascade of `update_beta` (lines 229–238): `new_beta`
is compared against the emergency, critical and alert thresholds in turn
with `<=`; everything that falls through (including NaN, whose comparisons
are all false) is `NORMAL`. -/
def classify_val (m : BetaMonitor) (v : Val) : Severity :=
  if v.le (.finite m.emergency_threshold) then .EMERGENCY
  else if v.le (.finite m.critical_threshold) then .CRITICAL
  else if v.le (.finite m.alert_threshold) then .ALERT
  else .NORMAL

/-- History trimming in `update_beta` (lines 224–226): after appending, if
the list exceeds 1000 entries it is replaced by its last 1000 entries
(Python `self.beta_history[-1000:]`). -/
def trim_history (h : List Val) : List Val :=
  if 1000 < h.length then h.drop (h.length - 1000) else h

/-- `self.beta_history.append(new_beta)` followed by the trim. -/
def push_history (h : List Val) (v : Val) : List Val :=
  trim_history (h ++ [v])

/-- `BetaMonitor.update_beta` (lines 215–242): store the new value, append it
to the (trimmed) history, classify it, overwrite `alert_status`, and emit a
notification event `(new alert_status, current_beta)` exactly when the status
changed.  The returned event is what `_notify_callbacks` passes to every
registered callback. -/
def update_beta (m : BetaMonitor) (v : Val) : BetaMonitor × Option (Severity × Val) :=
  let newStatus := classify_val m v
  let m2 : BetaMonitor :=
    { m with current_beta := v
             beta_history := push_history m.beta_history v
             alert_status := newStatus }
  if m.alert_status ≠ newStatus then (m2, some (newStatus, v)) else (m2, none)

/-- Feeding a sequence of values to `update_beta`, collecting the emitted
notification events in order. -/
def run_updates : BetaMonitor → List Val → BetaMonitor × List (Severity × Val)
  | m, [] => (m, [])
  | m, v :: vs =>
    let p := update_beta m v
    let q := run_updates p.1 vs
    (q.1, p.2.toList ++ q.2)

/-- A registered alert callback: it receives the alert status and the current
beta and either returns normally or raises (`Except.error`). -/
def Callback : Type :=
  Severity → Val → Except String Unit

/-- What happened when one callback was invoked inside the `try`/`except`
block of `_notify_callbacks`: it either returned, or raised and the
exception was caught and logged. -/
inductive CallOutcome where
  | ok
  | raised (msg : String)
deriving DecidableEq, Repr

/-- One iteration of the loop body of `_notify_callbacks` (lines 246–250):
the callback is called with the status and beta; an exception is caught and
logged, never re-raised. -/
def run_callback (cb : Callback) (s : Severity) (v : Val) : CallOutcome :=
  match cb s v with
  | .ok _ => .ok
  | .error e => .raised e

/-- `BetaMonitor._notify_callbacks` (lines 244–250): every registered
callback is invoked in order with the same `(alert_status, current_beta)`
pair; because each call is wrapped in `try`/`except`, a raising callback
does not stop the loop and nothing propagates to the caller. -/
def notify_callbacks : List Callback → Severity → Val → List CallOutcome
  | [], _, _ => []
  | cb :: rest, s, v => run_callback cb s v :: notify_callbacks rest s v

/-- The three corrective action kinds of
`QDTSystemCorrector.apply_corrective_action`. -/
inductive ActionKind where
  | EMERGENCY_RESET
  | STRONG_CORRECTION
  | GENTLE_CORRECTION
deriving DecidableEq, Repr

/-- One entry of `corrective_actions_history` (lines 389–395), minus the
wall-clock timestamp. -/
structure CorrectiveAction where
  alert_status : Severity
  beta_value : ℚ
  action : ActionKind
  correction_factor : ℚ
deriving DecidableEq, Repr

/-- `QDTSystemCorrector.apply_corrective_action` (lines 362–398):
`correction_needed = reference_beta - current_beta`, then a branch on the
alert status picks the action kind and the factor, each factor being
`min(cap, correction_needed / divisor)` with no lower clamp.  The `else`
branch of the source handles `ALERT` (and anything else). -/
def apply_corrective_action (reference_beta : ℚ) (alert_status : Severity) (current_beta : ℚ) : CorrectiveAction :=
  let correction_needed := reference_beta - current_beta
  if alert_status = .EMERGENCY then
    { alert_status := alert_status
      beta_value := current_beta
      action := .EMERGENCY_RESET
      correction_factor := min 1.0 (correction_needed / 0.5) }
  else if alert_status = .CRITICAL then
    { alert_status := alert_status
      beta_value := current_beta
      action := .STRONG_CORRECTION
      correction_factor := min 0.7 (correction_needed / 0.6) }
  else
    { alert_status := alert_status
      beta_value := current_beta
      action := .GENTLE_CORRECTION
      correction_factor := min 0.3 (correction_needed / 0.8) }

/-- The append to `corrective_actions_history` performed at lines 389–395. -/
def record_corrective_action (hist : List CorrectiveAction) (reference_beta : ℚ) (alert_status : Severity) (current_beta : ℚ) : List CorrectiveAction :=
  hist ++ [apply_corrective_action reference_beta alert_status current_beta]

/-- The dictionary returned by `get_correction_parameters`. -/
structure CorrectionParams where
  void_energy_boost : ℚ
  lambda_adjustment : ℚ
  gamma_increase : ℚ
  stabilization_factor : ℚ
deriving DecidableEq, Repr

/-- `QDTSystemCorrector.get_correction_parameters` (lines 400–438): the
neutral default `{0, 0, 0, 1.0}` when no correction has been recorded,
otherwise a pure function of the most recent entry
(`corrective_actions_history[-1]`) keyed on its action kind. -/
def get_correction_parameters (hist : List CorrectiveAction) : CorrectionParams :=
  match hist.getLast? with
  | none =>
    { void_energy_boost := 0
      lambda_adjustment := 0
      gamma_increase := 0
      stabilization_factor := 1.0 }
  | some last =>
    let f := last.correction_factor
    match last.action with
    | .EMERGENCY_RESET =>
      { void_energy_boost := 0.5 * f
        lambda_adjustment := 0.1 * f
        gamma_increase := 0.2 * f
        stabilization_factor := 1 + f }
    | .STRONG_CORRECTION =>
      { void_energy_boost := 0.3 * f
        lambda_adjustment := 0.05 * f
        gamma_increase := 0.1 * f
        stabilization_factor := 1 + 0.7 * f }
    | .GENTLE_CORRECTION =>
      { void_energy_boost := 0.1 * f
        lambda_adjustment := 0.02 * f
        gamma_increase := 0.05 * f
        stabilization_factor := 1 + 0.3 * f }

/-! ### Supporting lemmas -/

/-- `push_history` always drops exactly the overflow prefix of the appended
list (dropping nothing when the result still fits in 1000 entries). -/
theorem push_history_eq_drop (h : List Val) (v : Val) :
    push_history h v = (h ++ [v]).drop (h.length + 1 - 1000) := by
  unfold push_history trim_history
  have hlen : (h ++ [v]).length = h.length + 1 := by simp
  rw [hlen]
  split_ifs with hl
  · rfl
  · have h0 : h.length + 1 - 1000 = 0 := by omega
    rw [h0, List.drop_zero]

/-- The length of the history after a push. -/
theorem push_history_length (h : List Val) (v : Val) :
    (push_history h v).length = min (h.length + 1) 1000 := by
  rw [push_history_eq_drop]
  simp only [List.length_drop, List.length_append, List.length_singleton]
  omega

/-- The pushed value is always the newest (last) element of the history. -/
theorem getLast?_push_history (h : List Val) (v : Val) :
    (push_history h v).getLast? = some v := by
  rw [push_history_eq_drop]
  rw [List.drop_append_of_le_length (by omega)]
  exact List.getLast?_concat _

/-- Folding `push_history` over a whole input sequence keeps exactly the
last 1000 entries of everything ever appended, in order. -/
theorem foldl_push_history (vs : List Val) :
    ∀ h : List Val, h.length ≤ 1000 →
      List.foldl push_history h vs = (h ++ vs).drop ((h ++ vs).length - 1000) := by
  induction vs with
  | nil =>
    intro h hle
    have h0 : (h ++ []).length - 1000 = 0 := by simp; omega
    rw [h0, List.drop_zero, List.append_nil]
    rfl
  | cons v vs ih =>
    intro h hle
    rw [List.foldl_cons]
    have hlen' : (push_history h v).length ≤ 1000 := by
      rw [push_history_length]; omega
    rw [ih (push_history h v) hlen', push_history_eq_drop]
    rw [← @List.drop_append_of_le_length Val (h ++ [v]) vs (h.length + 1 - 1000)
      (by simp; omega)]
    rw [List.drop_drop]
    have harr : (h ++ [v]) ++ vs = h ++ v :: vs := by
      rw [List.append_assoc, List.singleton_append]
    rw [harr]
    have hcnt : h.length + 1 - 1000 +
          ((List.drop (h.length + 1 - 1000) (h ++ v :: vs)).length - 1000)
        = (h ++ v :: vs).length - 1000 := by
      simp only [List.length_drop, List.length_append, List.length_cons]
      omega
    rw [hcnt]

/-- The state after `update_beta`, independent of whether a notification was
emitted. -/
theorem update_beta_fst (m : BetaMonitor) (v : Val) :
    (update_beta m v).1 =
      { m with current_beta := v
               beta_history := push_history m.beta_history v
               alert_status := classify_val m v } := by
  simp only [update_beta]
  split_ifs <;> rfl

/-- `update_beta` always overwrites `alert_status` with the classification
of the new value. -/
theorem update_beta_status (m : BetaMonitor) (v : Val) :
    (update_beta m v).1.alert_status = classify_val m v := by
  rw [update_beta_fst]

/-- `update_beta` never changes the thresholds, so the classification
function is unchanged by an update. -/
theorem classify_val_update (m : BetaMonitor) (v w : Val) :
    classify_val (update_beta m v).1 w = classify_val m w := by
  rw [update_beta_fst]; rfl

/-- The notification emitted by one update: present exactly when the
classification differs from the stored status. -/
theorem update_beta_snd (m : BetaMonitor) (v : Val) :
    (update_beta m v).2 =
      if m.alert_status ≠ classify_val m v then some (classify_val m v, v)
      else none := by
  simp only [update_beta]
  split_ifs <;> rfl

/-- The loop of `_notify_callbacks` produces one outcome per registered
callback, each obtained by invoking that callback on the same arguments. -/
theorem notify_callbacks_eq_map (cbs : List Callback) (s : Severity) (v : Val) :
    notify_callbacks cbs s v = cbs.map (fun cb => run_callback cb s v) := by
  induction cbs with
  | nil => rfl
  | cons cb rest ih => simp [notify_callbacks, ih]

/-- Feeding a value whose classification equals the stored status emits no
notification, however many times it is repeated. -/
theorem run_updates_replicate_none (v : Val) :
    ∀ (n : ℕ) (m : BetaMonitor), m.alert_status = classify_val m v →
      (run_updates m (List.replicate n v)).2 = [] := by
  intro n
  induction n with
  | zero => intro m _; rfl
  | succ n ih =>
    intro m hsame
    rw [List.replicate_succ]
    have hev : (update_beta m v).2 = none := by
      rw [update_beta_snd, if_neg]
      simp [hsame]
    have hnext : (update_beta m v).1.alert_status
        = classify_val (update_beta m v).1 v := by
      rw [update_beta_status, classify_val_update]
    simp [run_updates, hev]
    exact ih (update_beta m v).1 hnext

/-! ### Claim theorems -/

/-- Claim C9: before any corrective action has been recorded,
`get_correction_parameters` returns the neutral default
`{boost: 0, couplingAdj: 0, dampingAdj: 0, stabilization: 1.0}`. -/
theorem C9_neutral_default :
    get_correction_parameters [] =
      { void_energy_boost := 0
        lambda_adjustment := 0
        gamma_increase := 0
        stabilization_factor := 1.0 } := rfl

/-- Claim C8: the correction parameters are a pure function of the most
recent corrective action; for an `EMERGENCY_RESET` action with stored factor
`f` they are `{0.5*f, 0.1*f, 0.2*f, 1+f}`, and in the scenario of a deviation
of `0.51` at `EMERGENCY` (reference `0.310`, beta `-0.20`) the factor is
`min(1.0, 0.51/0.5) = 1.0` and the parameters are `{0.5, 0.1, 0.2, 2.0}`. -/
theorem C8_emergency_reset_parameters :
    (∀ (hist : List CorrectiveAction) (act : CorrectiveAction),
      act.action = ActionKind.EMERGENCY_RESET →
        get_correction_parameters (hist ++ [act]) =
          { void_energy_boost := 0.5 * act.correction_factor
            lambda_adjustment := 0.1 * act.correction_factor
            gamma_increase := 0.2 * act.correction_factor
            stabilization_factor := 1 + act.correction_factor }) ∧
    (apply_corrective_action 0.310 Severity.EMERGENCY (-0.20)).correction_factor = 1 ∧
    get_correction_parameters [apply_corrective_action 0.310 Severity.EMERGENCY (-0.20)] =
      { void_energy_boost := 0.5
        lambda_adjustment := 0.1
        gamma_increase := 0.2
        stabilization_factor := 2 } := by
  have hmain : ∀ (hist : List CorrectiveAction) (act : CorrectiveAction),
      act.action = ActionKind.EMERGENCY_RESET →
        get_correction_parameters (hist ++ [act]) =
          { void_energy_boost := 0.5 * act.correction_factor
            lambda_adjustment := 0.1 * act.correction_factor
            gamma_increase := 0.2 * act.correction_factor
            stabilization_factor := 1 + act.correction_factor } := by
    intro hist act hact
    rw [get_correction_parameters, List.getLast?_concat]
    simp [hact]
  have hfac : (apply_corrective_action 0.310 Severity.EMERGENCY (-0.20)).correction_factor = 1 := by
    simp [apply_corrective_action]
    rw [min_def]
    norm_num
  refine ⟨hmain, hfac, ?_⟩
  have h := hmain [] (apply_corrective_action 0.310 Severity.EMERGENCY (-0.20)) rfl
  rw [List.nil_append] at h
  rw [h, hfac]
  norm_num

/-- Witness for C8 at the concrete `EMERGENCY_RESET` record with factor 1. -/
theorem C8_witness :
    (⟨Severity.EMERGENCY, -0.20, ActionKind.EMERGENCY_RESET, 1⟩ : CorrectiveAction).action
        = ActionKind.EMERGENCY_RESET ∧
    get_correction_parameters
        ([] ++ [⟨Severity.EMERGENCY, -0.20, ActionKind.EMERGENCY_RESET, 1⟩]) =
      { void_energy_boost := 0.5
        lambda_adjustment := 0.1
        gamma_increase := 0.2
        stabilization_factor := 2 } := by
  refine ⟨rfl, ?_⟩
  have h := C8_emergency_reset_parameters.1 []
    ⟨Severity.EMERGENCY, -0.20, ActionKind.EMERGENCY_RESET, 1⟩ rfl
  rw [h]
  norm_num

/-- Claim C2 counterexample: with the default reference beta `0.310`, an
`EMERGENCY` correction for the metric value `1` (above the reference, so the
deviation is negative) stores the factor `-69/50`, which is not in `[0, 1]`:
the source only caps the factor from above with `min` and never clamps it at
zero. -/
theorem C2_counterexample_factor_below_zero :
    (apply_corrective_action 0.310 Severity.EMERGENCY 1).correction_factor = -(69/50) ∧
    ¬ (0 ≤ (apply_corrective_action 0.310 Severity.EMERGENCY 1).correction_factor ∧
       (apply_corrective_action 0.310 Severity.EMERGENCY 1).correction_factor ≤ 1) := by
  have hfac : (apply_corrective_action 0.310 Severity.EMERGENCY 1).correction_factor = -(69/50) := by
    simp [apply_corrective_action]
    rw [min_def]
    norm_num
  refine ⟨hfac, ?_⟩
  rw [hfac]
  intro hc
  exact absurd hc.1 (by norm_num)

/-- Claim C2 amended: for every severity and every metric value the stored
correction factor is clamped from above only — it is at most the branch cap
(`1.0` for EMERGENCY, `0.7` for CRITICAL, `0.3` for the GENTLE branch), hence
at most `1`, but it may be negative when the deviation is negative. -/
theorem C2_amended_factor_upper_clamped_only (reference_beta current_beta : ℚ) :
    (∀ s : Severity,
      (apply_corrective_action reference_beta s current_beta).correction_factor ≤ 1) ∧
    (apply_corrective_action reference_beta Severity.CRITICAL current_beta).correction_factor ≤ 0.7 ∧
    (apply_corrective_action reference_beta Severity.ALERT current_beta).correction_factor ≤ 0.3 := by
  refine ⟨?_, ?_, ?_⟩
  · intro s
    cases s <;> simp [apply_corrective_action] <;> exact Or.inl (by norm_num)
  · simp [apply_corrective_action]
  · simp [apply_corrective_action]

/-- Claim C10: `update_beta` unconditionally records every value, finite or
not: afterwards `current_beta` equals the value and the value is the newest
element of the (trimmed) history; no input is rejected or tagged. -/
theorem C10_unconditional_recording (m : BetaMonitor) (v : Val) :
    (update_beta m v).1.current_beta = v ∧
    (update_beta m v).1.beta_history.getLast? = some v := by
  rw [update_beta_fst]
  exact ⟨rfl, getLast?_push_history _ _⟩

/-- Claim C1 counterexample: starting from severity `EMERGENCY`, feeding NaN
to `update_beta` yields severity `NORMAL` — the previous severity is not
retained and no distinguished fault is raised; NaN falls through every
threshold comparison and is silently classified as `NORMAL`. -/
theorem C1_counterexample_nan_overwrites_severity :
    (update_beta { defaultMonitor with alert_status := Severity.EMERGENCY }
        Val.nan).1.alert_status = Severity.NORMAL ∧
    Severity.NORMAL ≠ Severity.EMERGENCY := by
  exact ⟨rfl, by decide⟩

/-- Claim C1 amended: a NaN or `+inf` sample is classified `NORMAL` (every
`<=` comparison against a threshold is false) and `-inf` is classified
`EMERGENCY`; in every case `update_beta` overwrites the stored severity with
that classification and records the sample in the history with no invalid
tag — there is no severity-independent fault and the previous severity is
not retained. -/
theorem C1_amended_nonfinite_classification (m : BetaMonitor) :
    classify_val m Val.nan = Severity.NORMAL ∧
    classify_val m Val.inf = Severity.NORMAL ∧
    classify_val m Val.negInf = Severity.EMERGENCY ∧
    (update_beta m Val.nan).1.alert_status = Severity.NORMAL ∧
    (update_beta m Val.nan).1.beta_history.getLast? = some Val.nan := by
  refine ⟨?_, ?_, ?_, ?_, ?_⟩
  · rfl
  · rfl
  · rfl
  · rw [update_beta_status]
    rfl
  · rw [update_beta_fst]
    exact getLast?_push_history _ _

/-- Claim C6 counterexample: with the default thresholds, the value `0.05`
satisfies `value >= thresholds.alert` (it equals the alert threshold), yet
classification returns `ALERT`, not `NORMAL`: the alert boundary belongs to
the ALERT band because the source compares with `<=`. -/
theorem C6_counterexample_boundary_value_is_alert :
    defaultMonitor.alert_threshold ≤ (0.05 : ℚ) ∧
    classify_val defaultMonitor (.finite 0.05) ≠ Severity.NORMAL := by
  have hc : classify_val defaultMonitor (.finite 0.05) = Severity.ALERT := by
    simp only [classify_val, Val.le, defaultMonitor, mkBetaMonitor]
    norm_num
  constructor
  · simp only [defaultMonitor, mkBetaMonitor]
    norm_num
  · rw [hc]
    decide

/-- Claim C6 amended: for every metric value strictly above the alert
threshold (with the thresholds ordered), classification returns `NORMAL`;
the boundary `value = thresholds.alert` itself classifies as `ALERT`. -/
theorem C6_amended_strictly_above_alert_is_normal (m : BetaMonitor) (v : ℚ)
    (h1 : m.emergency_threshold ≤ m.critical_threshold)
    (h2 : m.critical_threshold ≤ m.alert_threshold)
    (h : m.alert_threshold < v) :
    classify_val m (.finite v) = Severity.NORMAL := by
  have he : ¬ (v ≤ m.emergency_threshold) := by linarith
  have hc : ¬ (v ≤ m.critical_threshold) := by linarith
  have ha : ¬ (v ≤ m.alert_threshold) := by linarith
  simp [classify_val, Val.le, he, hc, ha]

/-- Witness for the amended C6 at the default thresholds and value 1. -/
theorem C6_witness :
    defaultMonitor.emergency_threshold ≤ defaultMonitor.critical_threshold ∧
    defaultMonitor.critical_threshold ≤ defaultMonitor.alert_threshold ∧
    defaultMonitor.alert_threshold < (1 : ℚ) ∧
    classify_val defaultMonitor (.finite 1) = Severity.NORMAL := by
  refine ⟨?_, ?_, ?_, C6_amended_strictly_above_alert_is_normal defaultMonitor 1 ?_ ?_ ?_⟩ <;>
    (simp only [defaultMonitor, mkBetaMonitor]; norm_num)

/-- Claim C5: for every finite value and ordered thresholds
(emergency < critical < alert < reference), classification lands in exactly
the band given by the cascade `EMERGENCY if v <= emergency; else CRITICAL if
v <= critical; else ALERT if v <= alert; else NORMAL`, so a value satisfying
several thresholds receives the most severe classification. -/
theorem C5_classification_bands (m : BetaMonitor) (v : ℚ)
    (h1 : m.emergency_threshold < m.critical_threshold)
    (h2 : m.critical_threshold < m.alert_threshold)
    (h3 : m.alert_threshold < m.reference_beta) :
    (classify_val m (.finite v) = .EMERGENCY ↔ v ≤ m.emergency_threshold) ∧
    (classify_val m (.finite v) = .CRITICAL ↔
      (m.emergency_threshold < v ∧ v ≤ m.critical_threshold)) ∧
    (classify_val m (.finite v) = .ALERT ↔
      (m.critical_threshold < v ∧ v ≤ m.alert_threshold)) ∧
    (classify_val m (.finite v) = .NORMAL ↔ m.alert_threshold < v) := by
  simp only [classify_val, Val.le, decide_eq_true_eq]
  split_ifs with he hcr hal <;>
    refine ⟨?_, ?_, ?_, ?_⟩ <;>
      simp_all <;>
        first
          | linarith
          | (intro h; linarith)

/-- Witness for C5 at the default thresholds and value 0 (in the ALERT
band). -/
theorem C5_witness :
    defaultMonitor.emergency_threshold < defaultMonitor.critical_threshold ∧
    defaultMonitor.critical_threshold < defaultMonitor.alert_threshold ∧
    defaultMonitor.alert_threshold < defaultMonitor.reference_beta ∧
    (classify_val defaultMonitor (.finite 0) = .ALERT ↔
      (defaultMonitor.critical_threshold < 0 ∧ (0 : ℚ) ≤ defaultMonitor.alert_threshold)) := by
  refine ⟨?_, ?_, ?_, (C5_classification_bands defaultMonitor 0 ?_ ?_ ?_).2.2.1⟩ <;>
    (simp only [defaultMonitor, mkBetaMonitor]; norm_num)

/-- Claim C7: the history buffer never exceeds its capacity of 1000, and
folding the whole input sequence through the append-and-trim step leaves
exactly the last 1000 samples in insertion order (the oldest evicted
first). -/
theorem C7_history_capacity :
    (∀ (h : List Val) (v : Val), h.length ≤ 1000 → (push_history h v).length ≤ 1000) ∧
    (∀ vs : List Val, List.foldl push_history [] vs = vs.drop (vs.length - 1000)) := by
  constructor
  · intro h v hle
    rw [push_history_length]
    omega
  · intro vs
    have h := foldl_push_history vs [] (by simp)
    simpa using h

/-- Witness for C7 on a small concrete history. -/
theorem C7_witness :
    ([] : List Val).length ≤ 1000 ∧
    (push_history ([] : List Val) (Val.finite 1)).length ≤ 1000 ∧
    List.foldl push_history [] [Val.finite 1, Val.finite 2] = [Val.finite 1, Val.finite 2] := by
  refine ⟨by simp, C7_history_capacity.1 [] (Val.finite 1) (by simp), ?_⟩
  have h := C7_history_capacity.2 [Val.finite 1, Val.finite 2]
  simpa using h

/-- Claim C4: a notification is emitted exactly when the newly classified
severity differs from the stored one, and feeding the same value `n >= 1`
times from a state whose severity differs from its classification produces
exactly one notification, at the first crossing. -/
theorem C4_notify_exactly_on_transition :
    (∀ (m : BetaMonitor) (v : Val),
      (update_beta m v).2 =
        if m.alert_status ≠ classify_val m v then some (classify_val m v, v)
        else none) ∧
    (∀ (m : BetaMonitor) (v : Val) (n : ℕ), 1 ≤ n →
      m.alert_status ≠ classify_val m v →
        (run_updates m (List.replicate n v)).2 = [(classify_val m v, v)]) := by
  refine ⟨update_beta_snd, ?_⟩
  intro m v n hn hne
  obtain ⟨k, rfl⟩ : ∃ k, n = k + 1 := ⟨n - 1, by omega⟩
  rw [List.replicate_succ]
  have hev : (update_beta m v).2 = some (classify_val m v, v) := by
    rw [update_beta_snd, if_pos hne]
  have hnext : (update_beta m v).1.alert_status
      = classify_val (update_beta m v).1 v := by
    rw [update_beta_status, classify_val_update]
  simp [run_updates, hev]
  exact run_updates_replicate_none v k (update_beta m v).1 hnext

/-- Witness for C4: three repetitions of the sub-threshold value 0 from the
default monitor yield exactly one ALERT notification. -/
theorem C4_witness :
    (1 ≤ 3) ∧
    defaultMonitor.alert_status ≠ classify_val defaultMonitor (Val.finite 0) ∧
    (run_updates defaultMonitor (List.replicate 3 (Val.finite 0))).2
      = [(Severity.ALERT, Val.finite 0)] := by
  have hc : classify_val defaultMonitor (Val.finite 0) = Severity.ALERT := by
    simp only [classify_val, Val.le, defaultMonitor, mkBetaMonitor]
    norm_num
  have hne : defaultMonitor.alert_status ≠ classify_val defaultMonitor (Val.finite 0) := by
    rw [hc]
    decide
  refine ⟨by norm_num, hne, ?_⟩
  have h := C4_notify_exactly_on_transition.2 defaultMonitor (Val.finite 0) 3 (by norm_num) hne
  rw [hc] at h
  exact h

/-- Claim C3: if one registered callback raises, the fault is caught — every
callback after it is still invoked with the same `(severity, value)`
arguments and the notification loop returns normally (one outcome per
callback, nothing propagating). -/
theorem C3_failing_callback_does_not_block (pre post : List Callback) (bad : Callback)
    (s : Severity) (v : Val) (e : String) (hbad : bad s v = Except.error e) :
    notify_callbacks (pre ++ bad :: post) s v
      = pre.map (fun cb => run_callback cb s v)
        ++ CallOutcome.raised e :: post.map (fun cb => run_callback cb s v) := by
  rw [notify_callbacks_eq_map, List.map_append, List.map_cons]
  simp [run_callback, hbad]

/-- The exception message raised by the always-failing test callback. -/
def boomMessage : String := "callback failure"

/-- A callback that always raises, as in the spec scenario. -/
def failingCallback : Callback :=
  fun _ _ => Except.error boomMessage

/-- A callback that always succeeds. -/
def okCallback : Callback :=
  fun _ _ => Except.ok ()

/-- Witness for C3: a raising callback followed by a working one — both are
invoked, the second one succeeds. -/
theorem C3_witness :
    failingCallback Severity.ALERT (Val.finite 0) = Except.error boomMessage ∧
    notify_callbacks ([] ++ failingCallback :: [okCallback]) Severity.ALERT (Val.finite 0)
      = [CallOutcome.raised boomMessage, CallOutcome.ok] := by
  refine ⟨rfl, ?_⟩
  have h := C3_failing_callback_does_not_block [] [okCallback] failingCallback
    Severity.ALERT (Val.finite 0) boomMessage rfl
  simpa [run_callback, okCallback] using h
